import Mathlib

/-!
Shallow embedding of the n8n chat app backend (src/app.py and src/database.py).

Conventions of the embedding:
* JSON-file stores are passed explicitly as lists of records; each handler
  returns its response together with the new store and/or session state.
* Flask's cookie session is the `Session` structure; a Python key that may be
  absent is an `Option`.
* `datetime.now().isoformat()` and `str(uuid.uuid4())` are passed in as
  explicit string parameters (`now`, fresh ids), since the claims never depend
  on their actual values.
* Each `return jsonify(...), code` statement of a handler becomes one
  constructor of that handler's response type, carrying the body fields the
  claims talk about.
-/

namespace N8nChat

/-- A record of users.json (`add_user`, src/app.py:114). -/
structure User where
  id : String
  username : String
  created_at : String
  last_login : String
deriving DecidableEq, Repr

/-- A record of chats.json (`create_new_chat`, src/app.py:170). -/
structure Chat where
  id : String
  user_id : String
  session_id : String
  title : String
  created_at : String
  updated_at : String
deriving DecidableEq, Repr

/-- A record of webhooks.json (`create_webhook`, src/app.py:434). -/
structure Webhook where
  id : String
  name : String
  url : String
deriving DecidableEq, Repr

/-- The Flask cookie session: keys `username`, `user_id`, `chat_id`,
`session_id`; `none` models an absent key. -/
structure Session where
  username : Option String
  user_id : Option String
  chat_id : Option String
  session_id : Option String
deriving DecidableEq, Repr

/-- Python truthiness test `if not x` for an optional string:
true when the key is absent (None) or the string is empty. -/
def falsy : Option String → Bool
  | none => true
  | some s => s == ""

/-- Python's `str.lower()`: lower-case every character. -/
def lower (s : String) : String :=
  ⟨s.data.map Char.toLower⟩

/-- Python's `str.strip()`: drop whitespace from both ends. -/
def strip (s : String) : String :=
  ⟨((s.data.dropWhile Char.isWhitespace).reverse.dropWhile Char.isWhitespace).reverse⟩

/-- Function `get_webhook_by_id` (src/app.py:67-73): the loop returning the first
webhook with the given id. -/
def get_webhook_by_id (webhook_id : String) : List Webhook → Option Webhook
  | [] => none
  | w :: rest =>
    if w.id == webhook_id then some w else get_webhook_by_id webhook_id rest

/-- Function `get_user_by_username` (src/app.py:91-97): the loop returning the first
user whose username matches case-insensitively. -/
def get_user_by_username (username : String) : List User → Option User
  | [] => none
  | u :: rest =>
    if lower u.username == lower username then some u
    else get_user_by_username username rest

/-- The in-place loop of `add_user` (src/app.py:108-111): set `last_login` of
the first case-insensitive match to `now`, leaving everything else unchanged. -/
def set_last_login (username : String) (now : String) : List User → List User
  | [] => []
  | u :: rest =>
    if lower u.username == lower username then
      { u with last_login := now } :: rest
    else
      u :: set_last_login username now rest

/-- Function `add_user` (src/app.py:99-123): case-insensitive upsert. If the user
exists, only `last_login` is refreshed; otherwise a new record is appended.
Returns the looked-up record and the new users store. -/
def add_user (username : String) (users : List User) (newId : String) (now : String) :
    Option User × List User :=
  let users' :=
    match get_user_by_username username users with
    | some _ => set_last_login username now users
    | none => users ++ [{ id := newId, username := username,
                          created_at := now, last_login := now }]
  (get_user_by_username username users', users')

/-- Function `get_user_chats` (src/app.py:141): all chats owned by the user. -/
def get_user_chats (user_id : String) (chats : List Chat) : List Chat :=
  chats.filter (fun c => c.user_id == user_id)

/-- Function `get_chat_by_id` (src/app.py:146-152): the loop returning the first chat
with the given id. -/
def get_chat_by_id (chat_id : String) : List Chat → Option Chat
  | [] => none
  | c :: rest =>
    if c.id == chat_id then some c else get_chat_by_id chat_id rest

/-- The auto-generated title of `create_new_chat` (src/app.py:164-168):
`Chat-{count+1} ({date})` where count is the user's live-chat count. -/
def autoTitle (user_id : String) (chats : List Chat) (dateStr : String) : String :=
  "Chat-" ++ toString ((get_user_chats user_id chats).length + 1) ++ " (" ++ dateStr ++ ")"

/-- Function `create_new_chat` (src/app.py:154-181). `title?` is the `title` argument;
Python's `if not title` treats both `None` and `""` as absent. Fresh uuids and
the current time are the `newId`/`newSessionId`/`now`/`dateStr` parameters. -/
def create_new_chat (user_id : String) (title? : Option String) (chats : List Chat)
    (newId newSessionId : String) (now dateStr : String) : Chat × List Chat :=
  let title :=
    if falsy title? then autoTitle user_id chats dateStr
    else title?.getD ""
  let new_chat : Chat :=
    { id := newId, user_id := user_id, session_id := newSessionId,
      title := title, created_at := now, updated_at := now }
  (new_chat, chats ++ [new_chat])

/-- Function `update_chat` (src/app.py:183-196): find the first chat with the id, set
its title when the update carries one, always bump `updated_at`; return the
updated record (or none) and the new store. -/
def update_chat (chat_id : String) (title? : Option String) (chats : List Chat)
    (now : String) : Option Chat × List Chat :=
  match chats with
  | [] => (none, [])
  | c :: rest =>
    if c.id == chat_id then
      let c' := { c with title := title?.getD c.title, updated_at := now }
      (some c', c' :: rest)
    else
      let r := update_chat chat_id title? rest now
      (r.1, c :: r.2)

/-- Function `delete_chat` (src/app.py:198-207): drop every chat with the id; report
whether anything was removed. -/
def delete_chat (chat_id : String) (chats : List Chat) : Bool × List Chat :=
  let remaining := chats.filter (fun c => c.id != chat_id)
  if remaining.length < chats.length then (true, remaining) else (false, chats)

/-! ### History store (src/database.py) -/

/-- The parsed `message` column of a raw history row: either a JSON object
(whose `type`/`content` keys may be absent) or a non-object value, e.g. a
string that failed to parse as JSON (src/database.py:106-112 keeps it). -/
inductive MsgVal where
  | dict (type : Option String) (content : Option String)
  | nonDict (raw : String)
deriving DecidableEq, Repr

/-- A raw row of the external `n8n_chat_histories` table, already ordered by
ascending id by the query (src/database.py:91-96); the `message` key may in
principle be absent (`msg.get('message', {})` in src/app.py:554). -/
structure HistoryRecord where
  id : Int
  session_id : String
  message : Option MsgVal
deriving DecidableEq, Repr

/-- Outcome of the PostgreSQL round trip inside `get_chat_history`:
either the ordered rows, a `psycopg2.Error`, or any other exception. -/
inductive DbFetch where
  | ok (rows : List HistoryRecord)
  | dbError (msg : String)
  | unexpected (msg : String)
deriving DecidableEq, Repr

/-- Function `get_chat_history` (src/database.py:46-129): returns the rows on success
and swallows both `psycopg2.Error` and any other exception, returning `[]`
(src/database.py:117-123). It never raises to its caller. -/
def get_chat_history (fetch : DbFetch) : List HistoryRecord :=
  match fetch with
  | .ok rows => rows
  | .dbError _ => []
  | .unexpected _ => []

/-! ### History normalization (src/app.py:552-573) -/

/-- One entry of the frontend-friendly history. -/
structure FmtMsg where
  role : String
  content : String
deriving DecidableEq, Repr

/-- The normalization loop of `get_chat_history_api` (src/app.py:552-573):
keep only rows whose message is a dict of type `human` (role `user`) or `ai`
(role `assistant`), `continue` on any other type, skip non-dict messages. -/
def formatHistory : List HistoryRecord → List FmtMsg
  | [] => []
  | r :: rest =>
    match r.message.getD (MsgVal.dict none none) with
    | .dict type content =>
      let msg_type := type.getD ""
      let msg_content := content.getD ""
      if msg_type == "human" then
        { role := "user", content := msg_content } :: formatHistory rest
      else if msg_type == "ai" then
        { role := "assistant", content := msg_content } :: formatHistory rest
      else
        formatHistory rest
    | .nonDict _ => formatHistory rest

/-- Modelled from the spec (§4.6 `fetchHistory`), for comparison with
`formatHistory`: the per-record normalization — a well-formed object of type
`human` maps to role `user`, type `ai` to role `assistant`, and every other
shape is dropped. -/
def specRecordEntry (r : HistoryRecord) : Option FmtMsg :=
  match r.message with
  | some (.dict type content) =>
    if type = some "human" then some { role := "user", content := content.getD "" }
    else if type = some "ai" then some { role := "assistant", content := content.getD "" }
    else none
  | some (.nonDict _) => none
  | none => none

/-! ### Page routes and the login gate (src/app.py:211-283) -/

/-- Response of a `login_required` page route. -/
inductive PageResp where
  | redirectLogin
  | page (template : String)
deriving DecidableEq, Repr

/-- Route `chat_interface` (src/app.py:273-277) behind `login_required`
(src/app.py:211-218): redirect to `/login` when `username` is not in the
session, else render the page. -/
def chat_interface (s : Session) : PageResp :=
  if s.username.isNone then .redirectLogin else .page "chatinterface.html"

/-! ### Chat API endpoints (src/app.py:294-418) -/

/-- Responses of `get_chats` (src/app.py:294-303). -/
inductive GetChatsResp where
  | redirectLogin
  | noUser401
  | ok (chats : List Chat) (total : Nat)
deriving DecidableEq, Repr

/-- HTTP status of each `get_chats` outcome (a Flask redirect is a 302). -/
def GetChatsResp.httpStatus : GetChatsResp → Nat
  | .redirectLogin => 302
  | .noUser401 => 401
  | .ok _ _ => 200

/-- Route `get_chats` (src/app.py:294-303) behind `login_required`. -/
def get_chats (s : Session) (chats : List Chat) : GetChatsResp :=
  if s.username.isNone then .redirectLogin
  else if falsy s.user_id then .noUser401
  else
    let cs := get_user_chats (s.user_id.getD "") chats
    .ok cs cs.length

/-- Responses of `update_chat_endpoint` (src/app.py:324-357). -/
inductive UpdateResp where
  | redirectLogin
  | noUser401
  | notFound404
  | forbidden403
  | switched200 (chat : Chat)
  | ok200 (chat : Chat)
  | failed500
deriving DecidableEq, Repr

/-- Route `update_chat_endpoint` (src/app.py:324-357) behind `login_required`:
PUT /api/chats/id with body keys `action` and `title` (absent key = `none`).
Returns the response, the new chats store and the new session. -/
def update_chat_endpoint (s : Session) (chat_id : String)
    (action? title? : Option String) (chats : List Chat) (now : String) :
    UpdateResp × List Chat × Session :=
  if s.username.isNone then (.redirectLogin, chats, s)
  else if falsy s.user_id then (.noUser401, chats, s)
  else
    match get_chat_by_id chat_id chats with
    | none => (.notFound404, chats, s)
    | some chat =>
      if some chat.user_id ≠ s.user_id then (.forbidden403, chats, s)
      else if action? == some "switch" then
        (.switched200 chat, chats,
         { s with chat_id := some chat_id, session_id := some chat.session_id })
      else
        let r := update_chat chat_id title? chats now
        match r.1 with
        | some updated => (.ok200 updated, r.2, s)
        | none => (.failed500, r.2, s)

/-- Responses of `rename_chat_endpoint` (src/app.py:359-391). -/
inductive RenameResp where
  | redirectLogin
  | noUser401
  | notFound404
  | forbidden403
  | missingTitle400
  | emptyTitle400
  | tooLong400
  | ok200 (chat : Chat)
  | failed500
deriving DecidableEq, Repr

/-- Route `rename_chat_endpoint` (src/app.py:359-391) behind `login_required`:
PUT /api/chats/id/rename. `title?` is `none` when the body is missing/falsy
or has no `title` key. Returns the response and the new chats store. -/
def rename_chat_endpoint (s : Session) (chat_id : String) (title? : Option String)
    (chats : List Chat) (now : String) : RenameResp × List Chat :=
  if s.username.isNone then (.redirectLogin, chats)
  else if falsy s.user_id then (.noUser401, chats)
  else
    match get_chat_by_id chat_id chats with
    | none => (.notFound404, chats)
    | some chat =>
      if some chat.user_id ≠ s.user_id then (.forbidden403, chats)
      else
        match title? with
        | none => (.missingTitle400, chats)
        | some t =>
          let new_title := strip t
          if new_title == "" then (.emptyTitle400, chats)
          else if new_title.length > 100 then (.tooLong400, chats)
          else
            let r := update_chat chat_id (some new_title) chats now
            match r.1 with
            | some updated => (.ok200 updated, r.2)
            | none => (.failed500, r.2)

/-- Responses of `delete_chat_endpoint` (src/app.py:393-418). -/
inductive DeleteResp where
  | redirectLogin
  | noUser401
  | notFound404
  | forbidden403
  | ok200
  | failed500
deriving DecidableEq, Repr

/-- Route `delete_chat_endpoint` (src/app.py:393-418) behind `login_required`:
DELETE /api/chats/id; on success, clears the active chat/session binding when
the deleted chat was the active one (src/app.py:411-414). -/
def delete_chat_endpoint (s : Session) (chat_id : String) (chats : List Chat) :
    DeleteResp × List Chat × Session :=
  if s.username.isNone then (.redirectLogin, chats, s)
  else if falsy s.user_id then (.noUser401, chats, s)
  else
    match get_chat_by_id chat_id chats with
    | none => (.notFound404, chats, s)
    | some chat =>
      if some chat.user_id ≠ s.user_id then (.forbidden403, chats, s)
      else
        let r := delete_chat chat_id chats
        if r.1 then
          let s' :=
            if s.chat_id == some chat_id then
              { s with chat_id := none, session_id := none }
            else s
          (.ok200, r.2, s')
        else (.failed500, r.2, s)

/-! ### History endpoint (src/app.py:520-591) -/

/-- Responses of `get_chat_history_api`. `okDegraded` is the handler's
`except` branch (src/app.py:582-591), reached only when the `try` block
raises — which `get_chat_history` never does for data-access failures, since
`src/database.py` already swallows them into an empty row list. -/
inductive HistoryResp where
  | redirectLogin
  | notFound404
  | forbidden403
  | noActiveChat200 (message : String)
  | ok200 (chat_id : Option String) (session_id : String)
      (history : List FmtMsg) (total_messages : Nat)
  | okDegraded200 (chat_id : Option String) (session_id : String) (errMsg : String)
deriving DecidableEq, Repr

/-- HTTP status of each `get_chat_history_api` outcome. -/
def HistoryResp.httpStatus : HistoryResp → Nat
  | .redirectLogin => 302
  | .notFound404 => 404
  | .forbidden403 => 403
  | .noActiveChat200 _ => 200
  | .ok200 _ _ _ _ => 200
  | .okDegraded200 _ _ _ => 200

/-- Whether the response body carries an `error` field. -/
def HistoryResp.hasErrorField : HistoryResp → Bool
  | .okDegraded200 _ _ _ => true
  | _ => false

/-- The history carried by a 200 response (empty for the other outcomes). -/
def HistoryResp.history : HistoryResp → List FmtMsg
  | .ok200 _ _ h _ => h
  | _ => []

/-- Route `get_chat_history_api` (src/app.py:520-591) behind `login_required`:
GET /api/chat/history with optional `chat_id` query parameter. With an
explicit `chat_id` it is ownership-checked; without one, the active session
is used, answering `No active chat found.` when none is bound. The rows the
store would yield are the `fetch` parameter. -/
def get_chat_history_api (s : Session) (chatIdParam : Option String)
    (chats : List Chat) (fetch : DbFetch) : HistoryResp :=
  if s.username.isNone then .redirectLogin
  else
    let target : Except HistoryResp (Option String × String) :=
      match chatIdParam with
      | some cid =>
        match get_chat_by_id cid chats with
        | none => .error .notFound404
        | some chat =>
          if some chat.user_id ≠ s.user_id then .error .forbidden403
          else .ok (some cid, chat.session_id)
      | none =>
        match s.session_id with
        | none => .error (.noActiveChat200 "No active chat found.")
        | some sid => .ok (s.chat_id, sid)
    match target with
    | .error r => r
    | .ok (chat_id, session_id) =>
      let formatted := formatHistory (get_chat_history fetch)
      .ok200 chat_id session_id formatted formatted.length

/-! ### Legacy webhook endpoint (src/app.py:490-512) -/

/-- Responses of `update_webhook_legacy`. -/
inductive LegacyWebhookResp where
  | missingUrl400
  | ok200 (webhook_url : String)
deriving DecidableEq, Repr

/-- Route `update_webhook_legacy` (src/app.py:490-512): POST /api/webhook. Updates
the url of the index-0 webhook when the registry is non-empty, otherwise
appends a fresh webhook named `Default Webhook`. Not login-gated. -/
def update_webhook_legacy (webhook_url? : Option String) (webhooks : List Webhook)
    (newId : String) : LegacyWebhookResp × List Webhook :=
  match webhook_url? with
  | none => (.missingUrl400, webhooks)
  | some new_url =>
    let webhooks' :=
      match webhooks with
      | [] => [{ id := newId, name := "Default Webhook", url := new_url }]
      | w :: rest => { w with url := new_url } :: rest
    (.ok200 new_url, webhooks')

/-! ### Message relay (src/app.py:593-657) -/

/-- Outcome of the outbound `requests.post` round trip in `send_message`:
a 2xx response with parsed JSON (whose `reply` key may be absent), an HTTP or
connection error (`RequestException`), a timeout, or a JSON decode failure of
the response body. -/
inductive RelayOutcome where
  | respOk (reply : Option String)
  | requestFailed (details : String)
  | timedOut
  | badJson
deriving DecidableEq, Repr

/-- Responses of `send_message`. -/
inductive SendResp where
  | redirectLogin
  | missingMessage400
  | webhookNotFound404
  | noWebhook400
  | reply200 (reply : String)
  | missingReply500
  | timeout504
  | requestFailed500 (details : String)
  | badJson500
deriving DecidableEq, Repr

/-- Body of POST /chat/send: `message` required, `webhook_id` optional.
An absent/falsy JSON body is modelled as both keys absent. -/
structure SendBody where
  message : Option String
  webhook_id : Option String
deriving DecidableEq, Repr

/-- Route `send_message` (src/app.py:593-657) behind `login_required`: resolve the
webhook (explicit id or the registry's first entry), create an active chat if
none is bound, touch the active chat, relay the message and surface the
outcome. Returns the response, the new chats store and the new session. -/
def send_message (s : Session) (body : SendBody) (webhooks : List Webhook)
    (chats : List Chat) (relay : String → RelayOutcome)
    (newChatId newSessionId : String) (now dateStr : String) :
    SendResp × List Chat × Session :=
  if s.username.isNone then (.redirectLogin, chats, s)
  else
    match body.message with
    | none => (.missingMessage400, chats, s)
    | some _ =>
      let url? : Except SendResp String :=
        match body.webhook_id with
        | some wid =>
          match get_webhook_by_id wid webhooks with
          | none => .error .webhookNotFound404
          | some w => .ok w.url
        | none =>
          match webhooks with
          | [] => .error .noWebhook400
          | w :: _ => .ok w.url
      match url? with
      | .error e => (e, chats, s)
      | .ok webhook_url =>
        let ensured :
            Session × List Chat :=
          if s.session_id.isNone || s.chat_id.isNone then
            let r := create_new_chat (s.user_id.getD "") none chats
                       newChatId newSessionId now dateStr
            ({ s with chat_id := some r.1.id, session_id := some r.1.session_id }, r.2)
          else (s, chats)
        let s1 := ensured.1
        let chats1 := ensured.2
        let chats2 :=
          if falsy s1.chat_id then chats1
          else (update_chat (s1.chat_id.getD "") none chats1 now).2
        match relay webhook_url with
        | .timedOut => (.timeout504, chats2, s1)
        | .requestFailed d => (.requestFailed500 d, chats2, s1)
        | .badJson => (.badJson500, chats2, s1)
        | .respOk none => (.missingReply500, chats2, s1)
        | .respOk (some r) => (.reply200 r, chats2, s1)

/-! ### Iterated chat creation (composition of `create_new_chat`) -/

/-- A run of consecutive `create_new_chat` calls without explicit titles, one
per entry of `ids` (the k-th entry provides the fresh chat and session uuids).
Returns the final store and the generated titles in creation order. -/
def create_run (user_id : String) (now dateStr : String) :
    List (String × String) → List Chat → List Chat × List String
  | [], chats => (chats, [])
  | (nid, sid) :: rest, chats =>
    let r := create_new_chat user_id none chats nid sid now dateStr
    let rr := create_run user_id now dateStr rest r.2
    (rr.1, r.1.title :: rr.2)

/-! ### Concrete fixtures used by witnesses and counterexamples -/

/-- A browser session that never logged in: no keys bound. -/
def anonSession : Session :=
  { username := none, user_id := none, chat_id := none, session_id := none }

/-- A logged-in session for user `u1` with active chat `c1` / session `s1`. -/
def aliceActive : Session :=
  { username := some "alice", user_id := some "u1",
    chat_id := some "c1", session_id := some "s1" }

/-- A chat owned by `u1` with id `c1`. -/
def aliceChat : Chat :=
  { id := "c1", user_id := "u1", session_id := "s1", title := "T",
    created_at := "t0", updated_at := "t0" }

/-- A chat owned by a different user `u2`, also with id `c1`. -/
def bobChat : Chat :=
  { id := "c1", user_id := "u2", session_id := "s1", title := "T",
    created_at := "t0", updated_at := "t0" }

/-! ### Helper lemmas -/

theorem get_chat_by_id_cons_pos {a : Chat} {cid : String} (rest : List Chat)
    (h : (a.id == cid) = true) : get_chat_by_id cid (a :: rest) = some a := by
  simp [get_chat_by_id, h]

theorem get_chat_by_id_cons_neg {a : Chat} {cid : String} (rest : List Chat)
    (h : (a.id == cid) = false) :
    get_chat_by_id cid (a :: rest) = get_chat_by_id cid rest := by
  simp [get_chat_by_id, h]

/-- A chat that `get_chat_by_id` finds makes the deleting filter drop at
least one record. -/
theorem filter_ne_length_lt (cid : String) :
    ∀ chats : List Chat, (∃ c, get_chat_by_id cid chats = some c) →
      (chats.filter (fun x => x.id != cid)).length < chats.length := by
  intro chats
  induction chats with
  | nil => rintro ⟨c, h⟩; simp [get_chat_by_id] at h
  | cons a rest ih =>
    rintro ⟨c, h⟩
    by_cases ha : (a.id == cid) = true
    · have hkeep : (a.id != cid) = false := by simp [bne, ha]
      simp only [List.filter_cons, hkeep, Bool.false_eq_true, if_false, List.length_cons]
      exact Nat.lt_succ_of_le (List.length_filter_le _ rest)
    · have hb : (a.id == cid) = false := eq_false_of_ne_true ha
      have hkeep : (a.id != cid) = true := by simp [bne, hb]
      rw [get_chat_by_id_cons_neg rest hb] at h
      simp only [List.filter_cons, hkeep, if_true, List.length_cons]
      exact Nat.succ_lt_succ (ih ⟨c, h⟩)

/-- Deleting a chat id that `get_chat_by_id` resolves reports a
removal and leaves exactly the other chats. -/
theorem delete_chat_found {cid : String} {chats : List Chat} {c : Chat}
    (h : get_chat_by_id cid chats = some c) :
    delete_chat cid chats = (true, chats.filter (fun x => x.id != cid)) := by
  have hlt := filter_ne_length_lt cid chats ⟨c, h⟩
  simp [delete_chat, hlt]

/-- Updating a chat id that `get_chat_by_id` resolves to `c` returns
`c` with the requested title (when given) and the bumped `updated_at`, and
the new store resolves the id to that updated record. -/
theorem update_chat_found (cid : String) (t? : Option String) (now : String) :
    ∀ (chats : List Chat) (c : Chat), get_chat_by_id cid chats = some c →
      (update_chat cid t? chats now).1
          = some { c with title := t?.getD c.title, updated_at := now } ∧
      get_chat_by_id cid (update_chat cid t? chats now).2
          = some { c with title := t?.getD c.title, updated_at := now } := by
  intro chats
  induction chats with
  | nil => intro c h; simp [get_chat_by_id] at h
  | cons a rest ih =>
    intro c h
    by_cases ha : (a.id == cid) = true
    · have hc : a = c := by
        rw [get_chat_by_id_cons_pos rest ha] at h
        exact Option.some.inj h
      subst hc
      refine ⟨by simp [update_chat, ha], ?_⟩
      simp only [update_chat, ha, if_true]
      exact get_chat_by_id_cons_pos rest ha
    · have hb : (a.id == cid) = false := eq_false_of_ne_true ha
      rw [get_chat_by_id_cons_neg rest hb] at h
      obtain ⟨h1, h2⟩ := ih c h
      refine ⟨by simp [update_chat, hb, h1], ?_⟩
      simp only [update_chat, hb, Bool.false_eq_true, if_false]
      rw [get_chat_by_id_cons_neg _ hb]
      exact h2

/-- Case-insensitive user lookup only depends on the lower-cased name. -/
theorem get_user_by_username_congr {u₁ u₂ : String} (hlow : lower u₁ = lower u₂) :
    ∀ users : List User, get_user_by_username u₂ users = get_user_by_username u₁ users := by
  intro users
  induction users with
  | nil => rfl
  | cons a rest ih => rw [get_user_by_username, get_user_by_username, ← hlow, ih]

theorem set_last_login_length (username now : String) :
    ∀ users : List User, (set_last_login username now users).length = users.length := by
  intro users
  induction users with
  | nil => rfl
  | cons a rest ih =>
    by_cases ha : (lower a.username == lower username) = true
    · simp [set_last_login, ha]
    · have hb := eq_false_of_ne_true ha
      simp [set_last_login, hb, ih]

/-- Refreshing `last_login` of the user a lookup resolves changes only that
field of that record, as seen by any lookup of the same lower-cased name. -/
theorem get_user_set_last_login (u₁ u₂ now : String) (hlow : lower u₁ = lower u₂) :
    ∀ (users : List User) (e : User), get_user_by_username u₁ users = some e →
      get_user_by_username u₂ (set_last_login u₁ now users)
        = some { e with last_login := now } := by
  intro users
  induction users with
  | nil => intro e h; simp [get_user_by_username] at h
  | cons a rest ih =>
    intro e h
    by_cases ha : ((lower a.username == lower u₁)) = true
    · have he : a = e := by
        rw [get_user_by_username, if_pos ha] at h
        exact Option.some.inj h
      rw [set_last_login, if_pos ha]
      have ha' : ((lower a.username == lower u₂)) = true := by
        rw [← hlow]; exact ha
      rw [get_user_by_username,
        if_pos (show ((lower ({ a with last_login := now } : User).username) == lower u₂) = true from ha'), he]
    · have hb := eq_false_of_ne_true ha
      rw [get_user_by_username, if_neg (by simp [hb])] at h
      rw [set_last_login, if_neg (by simp [hb]), get_user_by_username]
      have hb' : ((lower a.username == lower u₂)) = false := by
        rw [← hlow]; exact hb
      rw [if_neg (by simp [hb'])]
      exact ih e h

/-- Appending a fresh record does not disturb an unsuccessful lookup except
for the new record itself. -/
theorem get_user_by_username_append (u : String) (x : User) :
    ∀ users : List User, get_user_by_username u users = none →
      get_user_by_username u (users ++ [x])
        = if (lower x.username == lower u) then some x else none := by
  intro users
  induction users with
  | nil => intro _; simp [get_user_by_username]
  | cons a rest ih =>
    intro h
    by_cases ha : ((lower a.username == lower u)) = true
    · rw [get_user_by_username, if_pos ha] at h
      exact absurd h (by simp)
    · have hb := eq_false_of_ne_true ha
      rw [get_user_by_username, if_neg (by simp [hb])] at h
      rw [List.cons_append, get_user_by_username, if_neg (by simp [hb])]
      exact ih h

/-- Function `add_user` answers with the lookup over the store it just wrote. -/
theorem add_user_fst (u : String) (users : List User) (nid now : String) :
    (add_user u users nid now).1
      = get_user_by_username u (add_user u users nid now).2 := rfl

/-- Function `add_user` always resolves the username afterwards. -/
theorem add_user_finds (u : String) (users : List User) (nid now : String) :
    ∃ e, (add_user u users nid now).1 = some e := by
  unfold add_user
  cases hex : get_user_by_username u users with
  | some e0 =>
    simp only [hex]
    exact ⟨_, get_user_set_last_login u u now rfl users e0 hex⟩
  | none =>
    simp only [hex]
    refine ⟨{ id := nid, username := u, created_at := now, last_login := now }, ?_⟩
    rw [get_user_by_username_append u _ users hex, if_pos (by simp)]

/-- Creating a chat for `uid` grows that user's live-chat count by one. -/
theorem create_new_chat_count (uid : String) (t? : Option String) (chats : List Chat)
    (nid sid now d : String) :
    (get_user_chats uid (create_new_chat uid t? chats nid sid now d).2).length
      = (get_user_chats uid chats).length + 1 := by
  simp [create_new_chat, get_user_chats, List.filter_append]

/-! ### Claims -/

/-- C3: history normalization returns, in input order, one `{role, content}`
entry per record whose message is a well-formed object of type `human`
(role `user`) or `ai` (role `assistant`), silently dropping every other
record; as a total Lean function it cannot raise. Stated as: the handler's
loop equals `filterMap` of the spec's per-record mapping. -/
theorem history_normalization_filterMap (raw : List HistoryRecord) :
    formatHistory raw = raw.filterMap specRecordEntry := by
  induction raw with
  | nil => rfl
  | cons r rest ih =>
    rcases hm : r.message with _ | mv
    · simp [formatHistory, specRecordEntry, hm, List.filterMap_cons, ih]
    · rcases mv with ⟨type, content⟩ | raws
      · rcases type with _ | t
        · simp [formatHistory, specRecordEntry, hm, List.filterMap_cons, ih]
        · by_cases hh : t = "human"
          · subst hh
            simp [formatHistory, specRecordEntry, hm, List.filterMap_cons, ih]
          · by_cases ha : t = "ai"
            · subst ha
              simp [formatHistory, specRecordEntry, hm, List.filterMap_cons, ih]
            · simp [formatHistory, specRecordEntry, hm, List.filterMap_cons, ih, hh, ha]
      · simp [formatHistory, specRecordEntry, hm, List.filterMap_cons, ih]

/-- C9: legacy POST /api/webhook on an empty registry creates exactly one
webhook named `Default Webhook` with the given URL; on any non-empty registry
it updates the URL of the index-0 webhook in place (same id, same size); in
particular the second call after the first rewrites the same single record. -/
theorem legacy_webhook_first_or_create (u u' nid nid' : String) :
    update_webhook_legacy (some u) [] nid
        = (.ok200 u, [{ id := nid, name := "Default Webhook", url := u }]) ∧
    (∀ (w : Webhook) (rest : List Webhook),
      update_webhook_legacy (some u') (w :: rest) nid'
        = (.ok200 u', { w with url := u' } :: rest)) ∧
    update_webhook_legacy (some u')
        (update_webhook_legacy (some u) [] nid).2 nid'
        = (.ok200 u', [{ id := nid, name := "Default Webhook", url := u' }]) := by
  refine ⟨rfl, fun w rest => rfl, rfl⟩

/-- C1 (counterexample): a request with no identity bound in the session to
the Authenticated-gated API route GET /api/chats is answered with a 302
redirect to /login, not with HTTP 401 as claimed. -/
theorem unauthenticated_api_is_redirect_not_401 :
    get_chats anonSession [] = .redirectLogin ∧
    (get_chats anonSession []).httpStatus = 302 ∧
    (get_chats anonSession []).httpStatus ≠ 401 := by
  refine ⟨rfl, rfl, by decide⟩

/-- C1 (amended): with no `username` in the session, every
Authenticated-gated route — API or page alike — responds with a redirect to
/login; the 401 of the API routes is produced only in the partial-session
state where a `username` is bound but `user_id` is absent or empty. -/
theorem login_gate_redirects (s : Session) (chats : List Chat) (p : Option String)
    (fetch : DbFetch) (body : SendBody) (webhooks : List Webhook)
    (relay : String → RelayOutcome) (a b c d : String) :
    (s.username = none →
      get_chats s chats = .redirectLogin ∧
      get_chat_history_api s p chats fetch = .redirectLogin ∧
      (send_message s body webhooks chats relay a b c d).1 = .redirectLogin ∧
      chat_interface s = .redirectLogin ∧
      (get_chats s chats).httpStatus = 302) ∧
    (∀ un, s.username = some un → falsy s.user_id = true →
      get_chats s chats = .noUser401 ∧ (get_chats s chats).httpStatus = 401) := by
  constructor
  · intro h
    refine ⟨?_, ?_, ?_, ?_, ?_⟩ <;>
      simp [get_chats, get_chat_history_api, send_message, chat_interface,
        GetChatsResp.httpStatus, h]
  · intro un hun hfalsy
    refine ⟨?_, ?_⟩ <;>
      simp [get_chats, GetChatsResp.httpStatus, hun, hfalsy]

/-- C1 (amended, witness): the amended statement applied to the anonymous
session and to a partial session with a username but no user id. -/
theorem login_gate_redirects_witness :
    get_chats anonSession [] = .redirectLogin ∧
    get_chat_history_api anonSession none [] (.ok []) = .redirectLogin ∧
    get_chats { anonSession with username := some "alice" } [] = .noUser401 := by
  have h₁ := (login_gate_redirects anonSession [] none (.ok [])
    { message := none, webhook_id := none } [] (fun _ => .badJson) "" "" "" "").1 rfl
  have h₂ := (login_gate_redirects { anonSession with username := some "alice" } []
    none (.ok []) { message := none, webhook_id := none } []
    (fun _ => .badJson) "" "" "" "").2 "alice" rfl rfl
  exact ⟨h₁.1, h₁.2.1, h₂.1⟩

/-- C2: an authenticated requester targeting a chat owned by a different
user gets Forbidden (403) from rename, delete and history-fetch, and the
stored chat collection (and the session) is unchanged by each request. -/
theorem foreign_chat_forbidden (s : Session) (chats : List Chat)
    (cid un u now : String) (chat : Chat) (title? : Option String) (fetch : DbFetch)
    (hun : s.username = some un) (hu : s.user_id = some u) (hne : u ≠ "")
    (hfound : get_chat_by_id cid chats = some chat) (hdiff : chat.user_id ≠ u) :
    rename_chat_endpoint s cid title? chats now = (.forbidden403, chats) ∧
    delete_chat_endpoint s cid chats = (.forbidden403, chats, s) ∧
    get_chat_history_api s (some cid) chats fetch = .forbidden403 := by
  have hbe : (u == "") = false := beq_eq_false_iff_ne.mpr hne
  refine ⟨?_, ?_, ?_⟩ <;>
    simp [rename_chat_endpoint, delete_chat_endpoint, get_chat_history_api,
      falsy, hun, hfound, hu, hdiff, hbe]

/-- C2 (witness): user `u1` targeting chat `c1` owned by `u2`. -/
theorem foreign_chat_forbidden_witness :
    rename_chat_endpoint aliceActive "c1" (some "New") [bobChat] "t1"
        = (.forbidden403, [bobChat]) ∧
    delete_chat_endpoint aliceActive "c1" [bobChat]
        = (.forbidden403, [bobChat], aliceActive) ∧
    get_chat_history_api aliceActive (some "c1") [bobChat] (.ok [])
        = .forbidden403 :=
  foreign_chat_forbidden aliceActive [bobChat] "c1" "alice" "u1" "t1" bobChat
    (some "New") (.ok []) rfl rfl (by decide) rfl (by decide)

/-- C4 (counterexample): when the history store is unreachable
(`psycopg2.Error` during GET /api/chat/history), the request indeed returns
HTTP 200 with an empty history — but the response carries no `error` field,
contrary to the claim: `database.get_chat_history` swallows the failure into
an empty row list, so the handler's error-reporting branch never runs. -/
theorem degraded_history_has_no_error_field :
    (get_chat_history_api aliceActive none [] (.dbError "connection refused")).httpStatus
        = 200 ∧
    (get_chat_history_api aliceActive none [] (.dbError "connection refused")).history
        = [] ∧
    (get_chat_history_api aliceActive none [] (.dbError "connection refused")).hasErrorField
        = false := by
  refine ⟨rfl, rfl, rfl⟩

/-- C4 (amended): on any history-store data-access failure (store unreachable
or malformed, i.e. any `psycopg2.Error` or other exception inside the
reader), GET /api/chat/history returns HTTP 200 with an empty history and the
chat/session identifiers, but without an `error` field: the reader swallows
the failure into an empty row list and the handler's `error`-reporting branch
is never reached. -/
theorem degraded_history_is_silent (s : Session) (un sid msg : String)
    (chats : List Chat) (fetch : DbFetch)
    (hun : s.username = some un) (hsid : s.session_id = some sid)
    (hfail : fetch = .dbError msg ∨ fetch = .unexpected msg) :
    (get_chat_history_api s none chats fetch = .ok200 s.chat_id sid [] 0 ∧
      (get_chat_history_api s none chats fetch).hasErrorField = false) ∧
    (∀ cid chat, get_chat_by_id cid chats = some chat →
      some chat.user_id = s.user_id →
      get_chat_history_api s (some cid) chats fetch
        = .ok200 (some cid) chat.session_id [] 0 ∧
      (get_chat_history_api s (some cid) chats fetch).hasErrorField = false) := by
  have hrows : get_chat_history fetch = [] := by
    rcases hfail with h | h <;> simp [h, get_chat_history]
  constructor
  · constructor <;>
      simp [get_chat_history_api, hun, hsid, hrows, formatHistory,
        HistoryResp.hasErrorField]
  · intro cid chat hfound hown
    constructor <;>
      simp [get_chat_history_api, hun, hfound, hown, hrows, formatHistory,
        HistoryResp.hasErrorField]

/-- C4 (amended, witness): the amended statement at the concrete degraded
store, for both the active-session and the explicit-chat-id form. -/
theorem degraded_history_is_silent_witness :
    get_chat_history_api aliceActive none [] (.dbError "connection refused")
        = .ok200 (some "c1") "s1" [] 0 ∧
    get_chat_history_api aliceActive (some "c1") [aliceChat]
        (.unexpected "bad row") = .ok200 (some "c1") "s1" [] 0 := by
  have h₁ := (degraded_history_is_silent aliceActive "alice" "s1"
    "connection refused" [] (.dbError "connection refused") rfl rfl
    (Or.inl rfl)).1.1
  have h₂ := ((degraded_history_is_silent aliceActive "alice" "s1" "bad row"
    [aliceChat] (.unexpected "bad row") rfl rfl (Or.inr rfl)).2
    "c1" aliceChat rfl rfl).1
  exact ⟨h₁, h₂⟩

/-- C5: renaming an owned chat to a title that is empty after trimming, or
whose trimmed form exceeds 100 characters, is rejected with a 400 validation
error and the store is unchanged; any other title is stored (trimmed) with a
bumped `updated_at`. -/
theorem rename_validation (s : Session) (chats : List Chat)
    (cid un u now t : String) (chat : Chat)
    (hun : s.username = some un) (hu : s.user_id = some u) (hne : u ≠ "")
    (hfound : get_chat_by_id cid chats = some chat) (hown : chat.user_id = u) :
    (strip t = "" →
      rename_chat_endpoint s cid (some t) chats now = (.emptyTitle400, chats)) ∧
    (strip t ≠ "" → (strip t).length > 100 →
      rename_chat_endpoint s cid (some t) chats now = (.tooLong400, chats)) ∧
    (strip t ≠ "" → (strip t).length ≤ 100 →
      rename_chat_endpoint s cid (some t) chats now
          = (.ok200 { chat with title := strip t, updated_at := now },
             (update_chat cid (some (strip t)) chats now).2) ∧
      get_chat_by_id cid (update_chat cid (some (strip t)) chats now).2
          = some { chat with title := strip t, updated_at := now }) := by
  have hbeu : (u == "") = false := beq_eq_false_iff_ne.mpr hne
  have hown' : (some chat.user_id ≠ s.user_id) = False := by
    rw [hu, hown]; simp
  refine ⟨?_, ?_, ?_⟩
  · intro hempty
    simp [rename_chat_endpoint, falsy, hun, hu, hbeu, hfound, hown', hown, hempty]
  · intro hnonempty hlong
    have hbe : (strip t == "") = false := beq_eq_false_iff_ne.mpr hnonempty
    simp [rename_chat_endpoint, falsy, hun, hu, hbeu, hfound, hown', hown, hbe, hlong]
  · intro hnonempty hshort
    have hbe : (strip t == "") = false := beq_eq_false_iff_ne.mpr hnonempty
    have hnl : ¬ ((strip t).length > 100) := by omega
    obtain ⟨h1, h2⟩ := update_chat_found cid (some (strip t)) now chats chat hfound
    constructor
    · simp [rename_chat_endpoint, falsy, hun, hu, hbeu, hfound, hown', hown, hbe, hnl, h1]
    · simpa using h2

/-- C5 (witness): renaming `c1` to `" Hello "` stores the trimmed title
`Hello` with the new `updated_at`; renaming to whitespace only is rejected
with no change to the store. -/
theorem rename_validation_witness :
    rename_chat_endpoint aliceActive "c1" (some "   ") [aliceChat] "t1"
        = (.emptyTitle400, [aliceChat]) ∧
    rename_chat_endpoint aliceActive "c1" (some " Hello ") [aliceChat] "t1"
        = (.ok200 { aliceChat with title := "Hello", updated_at := "t1" },
           (update_chat "c1" (some "Hello") [aliceChat] "t1").2) := by
  have h₁ := (rename_validation aliceActive [aliceChat] "c1" "alice" "u1" "t1"
    "   " aliceChat rfl rfl (by decide) rfl rfl).1 (by decide)
  have h₂ := ((rename_validation aliceActive [aliceChat] "c1" "alice" "u1" "t1"
    " Hello " aliceChat rfl rfl (by decide) rfl rfl).2.2 (by decide)
    (by decide)).1
  exact ⟨h₁, h₂⟩

/-- Function `add_user` on an already-known username refreshes only `last_login`. -/
theorem add_user_existing (u : String) (X : List User) (nid now : String) (e : User)
    (h : get_user_by_username u X = some e) :
    (add_user u X nid now).1 = some { e with last_login := now } ∧
    (add_user u X nid now).2 = set_last_login u now X := by
  have h2 : (add_user u X nid now).2 = set_last_login u now X := by
    unfold add_user
    rw [h]
  refine ⟨?_, h2⟩
  rw [add_user_fst, h2]
  exact get_user_set_last_login u u now rfl X e h

/-- C7: two usernames with the same lower-cased form resolve to the same
User record; the second login only refreshes `last_login` and never appends
a duplicate record. -/
theorem case_insensitive_upsert (users : List User) (u₁ u₂ nid₁ nid₂ now₁ now₂ : String)
    (hlow : lower u₁ = lower u₂) :
    ∃ e, (add_user u₁ users nid₁ now₁).1 = some e ∧
      (add_user u₂ (add_user u₁ users nid₁ now₁).2 nid₂ now₂).1
          = some { e with last_login := now₂ } ∧
      (add_user u₂ (add_user u₁ users nid₁ now₁).2 nid₂ now₂).2.length
          = (add_user u₁ users nid₁ now₁).2.length := by
  obtain ⟨e, he⟩ := add_user_finds u₁ users nid₁ now₁
  have h₁ : get_user_by_username u₁ (add_user u₁ users nid₁ now₁).2 = some e := by
    rw [← add_user_fst]; exact he
  have h₂ : get_user_by_username u₂ (add_user u₁ users nid₁ now₁).2 = some e := by
    rw [get_user_by_username_congr hlow]; exact h₁
  obtain ⟨hf, hs⟩ := add_user_existing u₂ _ nid₂ now₂ e h₂
  exact ⟨e, he, hf, by rw [hs, set_last_login_length]⟩

/-- C7 (witness): logging in as `Alice` and then as `alice` touches the same
record and leaves the user count unchanged. -/
theorem case_insensitive_upsert_witness :
    ∃ e, (add_user "Alice" [] "id1" "t1").1 = some e ∧
      (add_user "alice" (add_user "Alice" [] "id1" "t1").2 "id2" "t2").1
          = some { e with last_login := "t2" } ∧
      (add_user "alice" (add_user "Alice" [] "id1" "t1").2 "id2" "t2").2.length
          = (add_user "Alice" [] "id1" "t1").2.length :=
  case_insensitive_upsert [] "Alice" "alice" "id1" "id2" "t1" "t2" (by decide)

/-- C6 (counterexample): create a chat (auto-titled `Chat-1 (d)`), delete it,
create another: the new chat is titled `Chat-1 (d)` again, not `Chat-2 (d)`,
because the auto number is 1 + the live-chat count — creating N chats does
NOT yield `Chat-1 … Chat-N` when deletions are interleaved. -/
theorem auto_title_repeats_after_delete :
    (create_new_chat "u" none [] "c1" "s1" "t1" "d").1.title = "Chat-1 (d)" ∧
    (create_new_chat "u" none
        (delete_chat "c1" (create_new_chat "u" none [] "c1" "s1" "t1" "d").2).2
        "c2" "s2" "t2" "d").1.title = "Chat-1 (d)" ∧
    (create_new_chat "u" none
        (delete_chat "c1" (create_new_chat "u" none [] "c1" "s1" "t1" "d").2).2
        "c2" "s2" "t2" "d").1.title ≠ "Chat-2 (d)" := by
  refine ⟨by decide, by decide, by decide⟩

/-- C6 (amended): each auto-generated title is `Chat-{n} ({date})` with
`n` = 1 + the user's live-chat count at that creation; consequently a run of
N title-less creations with no interleaved deletions yields the numbers
`m+1, …, m+N` in creation order, where `m` is the starting live count — in
particular `Chat-1 … Chat-N` for a user starting with no chats. Deletions
lower the count and can repeat numbers. -/
theorem auto_title_counts_live_chats (uid now d : String) :
    (∀ (chats : List Chat) (nid sid : String),
      (create_new_chat uid none chats nid sid now d).1.title
        = "Chat-" ++ toString ((get_user_chats uid chats).length + 1)
            ++ " (" ++ d ++ ")") ∧
    ∀ (ids : List (String × String)) (chats : List Chat),
      (create_run uid now d ids chats).2
        = (List.range ids.length).map
            (fun k => "Chat-" ++ toString ((get_user_chats uid chats).length + 1 + k)
                        ++ " (" ++ d ++ ")") := by
  constructor
  · intro chats nid sid
    rfl
  · intro ids
    induction ids with
    | nil => intro chats; rfl
    | cons p rest ih =>
      intro chats
      obtain ⟨nid, sid⟩ := p
      have hcount := create_new_chat_count uid none chats nid sid now d
      simp only [create_run, List.length_cons, List.range_succ_eq_map,
        List.map_cons, List.map_map]
      refine List.cons_eq_cons.mpr ⟨?_, ?_⟩
      · show (create_new_chat uid none chats nid sid now d).1.title = _
        simp [create_new_chat, falsy, autoTitle]
      · rw [ih]
        simp only [hcount]
        apply List.map_congr_left
        intro k _
        simp only [Function.comp_apply]
        have harith : (get_user_chats uid chats).length + 1 + 1 + k
            = (get_user_chats uid chats).length + 1 + (k + 1) := by omega
        rw [harith]

/-- C8: deleting the currently active chat clears the active chat/session
binding, and a subsequent history fetch with no explicit chat id answers 200
with an empty history and `No active chat found.`; deleting a chat that is
not the active one leaves the session untouched. -/
theorem delete_active_chat_clears_binding (s : Session) (chats : List Chat)
    (cid un u : String) (chat : Chat) (fetch : DbFetch)
    (hun : s.username = some un) (hu : s.user_id = some u) (hne : u ≠ "")
    (hfound : get_chat_by_id cid chats = some chat) (hown : chat.user_id = u) :
    (s.chat_id = some cid →
      delete_chat_endpoint s cid chats
          = (.ok200, chats.filter (fun x => x.id != cid),
             { s with chat_id := none, session_id := none }) ∧
      get_chat_history_api { s with chat_id := none, session_id := none } none
          (chats.filter (fun x => x.id != cid)) fetch
          = .noActiveChat200 "No active chat found." ∧
      (get_chat_history_api { s with chat_id := none, session_id := none } none
          (chats.filter (fun x => x.id != cid)) fetch).httpStatus = 200 ∧
      (get_chat_history_api { s with chat_id := none, session_id := none } none
          (chats.filter (fun x => x.id != cid)) fetch).history = []) ∧
    (s.chat_id ≠ some cid →
      (delete_chat_endpoint s cid chats).2.2 = s) := by
  have hbeu : (u == "") = false := beq_eq_false_iff_ne.mpr hne
  have hown' : (some chat.user_id ≠ s.user_id) = False := by
    rw [hu, hown]; simp
  have hdel := delete_chat_found hfound
  constructor
  · intro hactive
    have hbid : (s.chat_id == some cid) = true := by rw [hactive]; simp
    refine ⟨?_, ?_, ?_, ?_⟩
    · simp [delete_chat_endpoint, falsy, hun, hu, hbeu, hfound, hown', hown,
        hdel, hbid]
    · simp [get_chat_history_api, hun]
    · simp [get_chat_history_api, hun, HistoryResp.httpStatus]
    · simp [get_chat_history_api, hun, HistoryResp.history]
  · intro hinactive
    have hbid : (s.chat_id == some cid) = false := beq_eq_false_iff_ne.mpr hinactive
    simp [delete_chat_endpoint, falsy, hun, hu, hbeu, hfound, hown', hown,
      hdel, hbid]

/-- C8 (witness): deleting the active chat `c1` for `u1` and then fetching
history without a chat id. -/
theorem delete_active_chat_clears_binding_witness :
    delete_chat_endpoint aliceActive "c1" [aliceChat]
        = (.ok200, [],
           { username := some "alice", user_id := some "u1",
             chat_id := none, session_id := none }) ∧
    get_chat_history_api
        { username := some "alice", user_id := some "u1",
          chat_id := none, session_id := none } none [] (.ok [])
        = .noActiveChat200 "No active chat found." := by
  have h := (delete_active_chat_clears_binding aliceActive [aliceChat] "c1"
    "alice" "u1" aliceChat (.ok []) rfl rfl (by decide) rfl rfl).1 rfl
  exact ⟨h.1, h.2.1⟩

/-- C10: the generic update endpoint PUT /api/chats/id accepts any title
whatsoever for an owned chat — including the empty string and strings over
100 characters — with no validation, answering 200 and storing the title
verbatim with a bumped `updated_at`. -/
theorem generic_update_skips_validation (s : Session) (chats : List Chat)
    (cid un u now t : String) (chat : Chat) (action? : Option String)
    (hun : s.username = some un) (hu : s.user_id = some u) (hne : u ≠ "")
    (hfound : get_chat_by_id cid chats = some chat) (hown : chat.user_id = u)
    (haction : action? ≠ some "switch") :
    update_chat_endpoint s cid action? (some t) chats now
        = (.ok200 { chat with title := t, updated_at := now },
           (update_chat cid (some t) chats now).2, s) ∧
    get_chat_by_id cid (update_chat cid (some t) chats now).2
        = some { chat with title := t, updated_at := now } := by
  have hbeu : (u == "") = false := beq_eq_false_iff_ne.mpr hne
  have hown' : (some chat.user_id ≠ s.user_id) = False := by
    rw [hu, hown]; simp
  have hact : (action? == some "switch") = false := beq_eq_false_iff_ne.mpr haction
  obtain ⟨h1, h2⟩ := update_chat_found cid (some t) now chats chat hfound
  constructor
  · simp [update_chat_endpoint, falsy, hun, hu, hbeu, hfound, hown', hown,
      hact, h1]
  · simpa using h2

/-- C10 (witness): updating `c1` with the empty title succeeds with 200 and
stores the empty title verbatim — the rename endpoint's validation does not
apply here. -/
theorem generic_update_skips_validation_witness :
    update_chat_endpoint aliceActive "c1" none (some "") [aliceChat] "t1"
        = (.ok200 { aliceChat with title := "", updated_at := "t1" },
           (update_chat "c1" (some "") [aliceChat] "t1").2, aliceActive) :=
  (generic_update_skips_validation aliceActive [aliceChat] "c1" "alice" "u1"
    "t1" "" aliceChat none rfl rfl (by decide) rfl rfl (by decide)).1

end N8nChat
